import Mathlib

/-!
Verification of the FUSAS attendance session engine against its code.

The definitions below are a shallow embedding of the JavaScript source:

* `src/backend/qr-code-generator.js` — token codec (`generateSecureQR`,
  `validateQR`, `generateRotatingQR`); the HMAC is abstracted as an
  arbitrary function `mac : String → String` supplied as a parameter,
  and timestamps are modelled as integers (milliseconds).
* `src/backend/attendance-api.js` — the QR scan / attendance recording
  endpoint (POST /api/attendance/scan).
* `src/database/final-optimized-schema.sql` — the
  UNIQUE(session_id, student_id) constraint on attendance_records,
  modelled by `insertRecord` refusing a duplicate key.
* `src/unnamed/part_005` — session lifecycle endpoints
  (activate / pause / resume / complete / cancel), automatic completion
  (`completeSessionAutomatically`) and the QR rotation registry
  (`startQRCodeRotation` / `stopQRCodeRotation` / `activeRotations`).
* `src/unnamed/part_004` — the generic PUT /api/sessions/:sessionId
  update endpoint.
-/

namespace Fusas

/-! ### Token codec (src/backend/qr-code-generator.js) -/

/-- `QR_EXPIRY_SECONDS` of qr-code-generator.js (30 seconds). -/
def QR_EXPIRY_SECONDS : Int := 30

/-- One decoded QR token. `expiresAt` models the parsed millisecond value
of the ISO `expiresAt` string. -/
structure QRData where
  sessionId : String
  timestamp : Int
  nonce : String
  signature : String
  expiresAt : Int
  deriving Repr, DecidableEq

/-- The signed payload string, as built in both `generateSecureQR` and
`validateQR`: sessionId, timestamp and nonce joined by dashes.  The
`expiresAt` field is NOT part of the payload. -/
def qrPayload (sessionId : String) (timestamp : Int) (nonce : String) : String :=
  sessionId ++ "-" ++ toString timestamp ++ "-" ++ nonce

/-- `QRCodeGenerator.generateSecureQR`, with the random nonce and the
call time `Date.now()` passed in explicitly and the HMAC abstracted as
`mac`. -/
def generateSecureQR (mac : String → String) (sessionId : String)
    (timestamp : Int) (nonce : String) : QRData :=
  { sessionId := sessionId
    timestamp := timestamp
    nonce := nonce
    signature := mac (qrPayload sessionId timestamp nonce)
    expiresAt := timestamp + QR_EXPIRY_SECONDS * 1000 }

/-- Result of `QRCodeGenerator.validateQR`: either
`\x7b isValid: false, error \x7d` or
`\x7b isValid: true, sessionId, timestamp \x7d`. -/
inductive ValidationResult where
  | invalid (error : String)
  | valid (sessionId : String) (timestamp : Int)
  deriving Repr, DecidableEq

/-- The `isValid` field of the result object. -/
def isValidResult : ValidationResult → Bool
  | .invalid _ => false
  | .valid _ _ => true

/-- `QRCodeGenerator.validateQR` at wall-clock time `now`.  Checks run in
source order: required fields present (a falsy string field or timestamp
is treated as missing), timestamp positivity, `now > expiresAt`,
`now - timestamp > 30000`, then HMAC recomputation over
(sessionId, timestamp, nonce) — the signature does not cover
`expiresAt`. -/
def validateQR (mac : String → String) (qr : QRData) (now : Int) :
    ValidationResult :=
  if qr.sessionId = "" then .invalid "Missing required field: sessionId"
  else if qr.timestamp = 0 then .invalid "Missing required field: timestamp"
  else if qr.nonce = "" then .invalid "Missing required field: nonce"
  else if qr.signature = "" then .invalid "Missing required field: signature"
  else if qr.timestamp ≤ 0 then .invalid "Invalid timestamp format"
  else if now > qr.expiresAt then .invalid "QR code has expired"
  else if now - qr.timestamp > 30000 then .invalid "QR code is too old"
  else if mac (qrPayload qr.sessionId qr.timestamp qr.nonce) ≠ qr.signature then
    .invalid "Invalid QR code signature"
  else .valid qr.sessionId qr.timestamp

/-- Result of `QRCodeGenerator.generateRotatingQR`. -/
structure RotatingQR where
  secret : String
  expiresAt : Nat
  data : String
  sessionId : String
  timestamp : Nat
  deriving Repr, DecidableEq

/-- `QRCodeGenerator.generateRotatingQR` with the call time `Date.now()`
(a non-negative millisecond count) passed in explicitly.  The timestamp
is floored to the enclosing 30-second bucket. -/
def generateRotatingQR (mac : String → String) (sessionId : String)
    (now : Nat) : RotatingQR :=
  let timestamp := now / 30000 * 30000
  let data := sessionId ++ ":" ++ toString timestamp
  { secret := mac data
    expiresAt := timestamp + 30000
    data := data
    sessionId := sessionId
    timestamp := timestamp }

end Fusas

namespace Fusas

/-! ### Attendance records and the scan endpoint
(src/backend/attendance-api.js, src/database/final-optimized-schema.sql) -/

/-- Attendance status values of the schema. -/
inductive AttStatus where
  | present
  | late
  | absent
  | excused
  deriving Repr, DecidableEq

/-- One row of `attendance_records` (the fields the claims are about). -/
structure AttendanceRecord where
  sessionId : String
  studentId : String
  scannedAt : Int
  status : AttStatus
  minutesLate : Int
  deriving Repr, DecidableEq

/-- Does a row carry the key (sessionId, studentId)? -/
def keyMatch (sid stid : String) (r : AttendanceRecord) : Bool :=
  r.sessionId == sid && r.studentId == stid

/-- The application-level duplicate check of the scan endpoint (lines
109-115 of attendance-api.js): select an existing row keyed by session
and student. -/
def checkPhase (records : List AttendanceRecord) (sid stid : String) :
    Option AttendanceRecord :=
  records.find? (keyMatch sid stid)

/-- Insertion into `attendance_records` under the storage-level
UNIQUE(session_id, student_id) constraint (schema line 170): the insert
is refused when a row with the same key already exists. -/
def insertRecord (records : List AttendanceRecord) (r : AttendanceRecord) :
    Option (List AttendanceRecord) :=
  if records.any (keyMatch r.sessionId r.studentId) then none
  else some (records ++ [r])

/-- Raw minutes-late value of the scan endpoint (line 133):
`Math.floor((currentTime - sessionStartTime) / 60000)` against the
scheduled class start.  `Int.fdiv` floors toward negative infinity like
`Math.floor`. -/
def minutesLateRaw (now start : Int) : Int :=
  (now - start).fdiv 60000

/-- The record built by the scan endpoint (lines 137-147): `late` with the
raw minutes when more than 5 minutes past the scheduled start, else
`present` with minutes_late stored as 0. -/
def mkScanRecord (sid stid : String) (now start : Int) : AttendanceRecord :=
  { sessionId := sid
    studentId := stid
    scannedAt := now
    status := if minutesLateRaw now start > 5 then .late else .present
    minutesLate := if minutesLateRaw now start > 5 then minutesLateRaw now start else 0 }

/-- The minutes-late formula as the spec words it:
`max(0, floor((redemption_time - scheduled_start_time) / 60s))`.
Declared only to be compared against the code. -/
def specMinutesLateFormula (now start : Int) : Int :=
  max 0 (minutesLateRaw now start)

/-- Session lifecycle states. -/
inductive SessionStatus where
  | scheduled
  | active
  | paused
  | completed
  | cancelled
  deriving Repr, DecidableEq

/-- One `class_sessions` row (the fields the claims are about).
`scheduledStart` is the millisecond value of the scheduled
`date`T`start_time`. -/
structure Session where
  status : SessionStatus
  isActive : Bool
  qrSecret : Option String
  qrExpiresAt : Option Int
  attendanceCount : Nat
  notes : Option String
  scheduledStart : Int
  deriving Repr, DecidableEq

/-- State visible to the scan endpoint: the session row, the attendance
rows of that session, and the number of attendance events emitted so
far. -/
structure ScanState where
  session : Session
  records : List AttendanceRecord
  events : Nat
  deriving Repr, DecidableEq

/-- Outcome of POST /api/attendance/scan (after token validation). -/
inductive ScanResult where
  | sessionNotOpen
  | notEnrolled
  | alreadyRecorded (existing : AttendanceRecord)
  | recordError
  | ok (rec : AttendanceRecord)
  deriving Repr, DecidableEq

/-- Is the outcome the 409 AlreadyRecorded response? -/
def isAlreadyRecorded : ScanResult → Bool
  | .alreadyRecorded _ => true
  | _ => false

/-- Is the outcome the success response? -/
def isOkResult : ScanResult → Bool
  | .ok _ => true
  | _ => false

/-- The scan endpoint body after token validation (attendance-api.js lines
57-210), sequential semantics: fetch the session filtered on
status = active, check enrollment, duplicate pre-check, then insert,
increment the denormalized counter and emit the attendance event.  An
insert refused by the storage constraint is the 500 response of line
151-157. -/
def scanHandler (enrolled : List String) (st : ScanState)
    (sid stid : String) (now : Int) : ScanResult × ScanState :=
  if st.session.status ≠ .active then (.sessionNotOpen, st)
  else if ¬ enrolled.contains stid then (.notEnrolled, st)
  else
    match checkPhase st.records sid stid with
    | some existing => (.alreadyRecorded existing, st)
    | none =>
      let newRec := mkScanRecord sid stid now st.session.scheduledStart
      match insertRecord st.records newRec with
      | none => (.recordError, st)
      | some recs =>
        (.ok newRec,
          { session := { st.session with
              attendanceCount := st.session.attendanceCount + 1 }
            records := recs
            events := st.events + 1 })

/-- Resumption of one scan attempt after its duplicate pre-check read
`dup`: a hit returns the existing row untouched; a miss attempts the
constrained insert, which either succeeds or returns the 500 insert
failure. -/
def resumePhase (dup : Option AttendanceRecord)
    (records : List AttendanceRecord) (newRec : AttendanceRecord) :
    ScanResult × List AttendanceRecord :=
  match dup with
  | some existing => (.alreadyRecorded existing, records)
  | none =>
    match insertRecord records newRec with
    | none => (.recordError, records)
    | some recs => (.ok newRec, recs)

/-- The six interleavings of two scan attempts A and B, each made of its
duplicate pre-check followed by its insert attempt. -/
inductive RaceOrder where
  | seqAB
  | seqBA
  | ccABthenAB
  | ccABthenBA
  | ccBAthenAB
  | ccBAthenBA
  deriving Repr, DecidableEq

/-- Execute two scan attempts for rows `recA` and `recB` against the
store `records0`, in the given interleaving; each check reads the store
as it is when that check runs.  Returns the outcome of A, the outcome of
B and the final store. -/
def raceExec (order : RaceOrder) (records0 : List AttendanceRecord)
    (recA recB : AttendanceRecord) :
    ScanResult × ScanResult × List AttendanceRecord :=
  match order with
  | .seqAB =>
    let dA := checkPhase records0 recA.sessionId recA.studentId
    let pA := resumePhase dA records0 recA
    let dB := checkPhase pA.2 recB.sessionId recB.studentId
    let pB := resumePhase dB pA.2 recB
    (pA.1, pB.1, pB.2)
  | .seqBA =>
    let dB := checkPhase records0 recB.sessionId recB.studentId
    let pB := resumePhase dB records0 recB
    let dA := checkPhase pB.2 recA.sessionId recA.studentId
    let pA := resumePhase dA pB.2 recA
    (pA.1, pB.1, pA.2)
  | .ccABthenAB =>
    let dA := checkPhase records0 recA.sessionId recA.studentId
    let dB := checkPhase records0 recB.sessionId recB.studentId
    let pA := resumePhase dA records0 recA
    let pB := resumePhase dB pA.2 recB
    (pA.1, pB.1, pB.2)
  | .ccABthenBA =>
    let dA := checkPhase records0 recA.sessionId recA.studentId
    let dB := checkPhase records0 recB.sessionId recB.studentId
    let pB := resumePhase dB records0 recB
    let pA := resumePhase dA pB.2 recA
    (pA.1, pB.1, pA.2)
  | .ccBAthenAB =>
    let dB := checkPhase records0 recB.sessionId recB.studentId
    let dA := checkPhase records0 recA.sessionId recA.studentId
    let pA := resumePhase dA records0 recA
    let pB := resumePhase dB pA.2 recB
    (pA.1, pB.1, pB.2)
  | .ccBAthenBA =>
    let dB := checkPhase records0 recB.sessionId recB.studentId
    let dA := checkPhase records0 recA.sessionId recA.studentId
    let pB := resumePhase dB records0 recB
    let pA := resumePhase dA pB.2 recA
    (pA.1, pB.1, pA.2)

/-- At most one `attendance_records` row per (session, student) key. -/
def atMostOnePerKey (records : List AttendanceRecord) : Prop :=
  ∀ sid stid : String, records.countP (keyMatch sid stid) ≤ 1

/-! ### Session lifecycle endpoints (src/unnamed/part_005) and the
generic session update endpoint (src/unnamed/part_004) -/

/-- The secret/expiry pair produced by `generateSecureQR` and stored on
the session by activate and resume. -/
structure QRIssue where
  secret : String
  expiresAt : Int
  deriving Repr, DecidableEq

/-- A failed lifecycle transition: the endpoint responds with an error and
performs no update. -/
inductive LifecycleError where
  | preconditionFailed (message : String)
  deriving Repr, DecidableEq

/-- POST /api/sessions/:sessionId/activate (part_005 lines 267-354): the
fetch is filtered on status = scheduled and any other source state is
the 400 response; on success the session becomes active with the fresh
secret and expiry stored. -/
def activateSession (s : Session) (qr : QRIssue) (notes : Option String) :
    Except LifecycleError Session :=
  if s.status ≠ .scheduled then
    .error (.preconditionFailed "Session not found or already activated")
  else
    .ok { s with
      status := .active
      isActive := true
      qrSecret := some qr.secret
      qrExpiresAt := some qr.expiresAt
      notes := notes }

/-- POST /api/sessions/:sessionId/pause (part_005 lines 549-601): the
fetch is filtered on status = active; on success the session becomes
paused with the expiry cleared (the secret column is not touched). -/
def pauseSession (s : Session) : Except LifecycleError Session :=
  if s.status ≠ .active then
    .error (.preconditionFailed "Session not found or not active")
  else
    .ok { s with
      status := .paused
      isActive := false
      qrExpiresAt := none }

/-- POST /api/sessions/:sessionId/resume (part_005 lines 604-660): the
fetch is filtered on status = paused; on success the session becomes
active with a fresh secret and expiry. -/
def resumeSession (s : Session) (qr : QRIssue) :
    Except LifecycleError Session :=
  if s.status ≠ .paused then
    .error (.preconditionFailed "Session not found or not paused")
  else
    .ok { s with
      status := .active
      isActive := true
      qrSecret := some qr.secret
      qrExpiresAt := some qr.expiresAt }

/-- The session-row update of POST /api/sessions/:sessionId/complete
(part_005 lines 508-517): there is no source-state filter — the endpoint
unconditionally marks any session completed. -/
def completeSessionUpdate (s : Session) : Session :=
  { s with status := .completed, isActive := false, qrExpiresAt := none }

/-- The session-row update of POST /api/sessions/:sessionId/cancel
(part_005 lines 674-684): there is no source-state filter — the endpoint
unconditionally marks any session cancelled. -/
def cancelSessionUpdate (s : Session) (notes : Option String) : Session :=
  { s with
    status := .cancelled
    isActive := false
    qrExpiresAt := none
    notes := notes }

/-- The `existingStudentIds` set built by reconciliation (part_005 line
395 and 485): the student ids of the rows already present. -/
def existingStudentIds (records : List AttendanceRecord) : List String :=
  records.map (fun r => r.studentId)

/-- The reconciliation insert of the complete endpoint and of
`completeSessionAutomatically` (part_005 lines 394-415 and 484-505): for
every actively-enrolled student without an existing row for the session,
build an `absent` row stamped with the completion time (`minutes_late`
is left to its schema default 0). -/
def reconcileAbsent (sid : String) (enrolled : List String)
    (records : List AttendanceRecord) (now : Int) : List AttendanceRecord :=
  (enrolled.filter (fun stid => !(existingStudentIds records).contains stid)).map
    (fun stid =>
      { sessionId := sid
        studentId := stid
        scannedAt := now
        status := .absent
        minutesLate := 0 })

/-- POST /api/sessions/:sessionId/complete (part_005 lines 449-546):
reconciliation runs, then the row is marked completed; no source-state
precondition is checked anywhere on this path. -/
def completeSessionEndpoint (s : Session) (sid : String)
    (enrolled : List String) (records : List AttendanceRecord) (now : Int) :
    Session × List AttendanceRecord :=
  (completeSessionUpdate s, records ++ reconcileAbsent sid enrolled records now)

/-- `completeSessionAutomatically` (part_005 lines 357-446), the hard
timeout callback body: the fetch is filtered on status = active, and any
other state returns early with no effect; otherwise reconciliation runs
and the row is marked completed. -/
def completeSessionAutomatically (s : Session) (sid : String)
    (enrolled : List String) (records : List AttendanceRecord) (now : Int) :
    Session × List AttendanceRecord :=
  if s.status ≠ .active then (s, records)
  else
    (completeSessionUpdate s, records ++ reconcileAbsent sid enrolled records now)

/-- PUT /api/sessions/:sessionId (part_004 lines 425-458): whichever of
status, notes, date and times are supplied are written as-is;
`is_active` and `qr_expires_at` are never touched by this endpoint. -/
def updateSessionPut (s : Session) (status : Option SessionStatus)
    (notes : Option String) (start : Option Int) : Session :=
  { s with
    status := status.getD s.status
    notes := match notes with | some n => some n | none => s.notes
    scheduledStart := start.getD s.scheduledStart }

/-- The invariant of claim C8 over one session row. -/
def sessionInvariant (s : Session) : Prop :=
  (s.isActive = true ↔ s.status = .active) ∧
  (s.status ≠ .active → s.qrExpiresAt = none)

instance (s : Session) : Decidable (sessionInvariant s) := by
  unfold sessionInvariant; infer_instance

/-! ### QR rotation registry (part_005 lines 884-930) -/

/-- State of the rotation machinery: a counter supplying interval ids,
the set of live `setInterval` timers (id, sessionId) — including any
that are no longer reachable from the registry — and the
`activeRotations` map from session id to the registered interval id. -/
structure RotationState where
  nextTimerId : Nat
  live : List (Nat × String)
  activeRotations : List (String × Nat)
  deriving Repr, DecidableEq

/-- `startQRCodeRotation` (lines 886-920): unconditionally creates a new
interval and stores it in the map, overwriting (and orphaning, not
clearing) any interval previously registered for the session. -/
def startQRCodeRotation (st : RotationState) (sid : String) : RotationState :=
  { nextTimerId := st.nextTimerId + 1
    live := (st.nextTimerId, sid) :: st.live
    activeRotations :=
      (sid, st.nextTimerId) ::
        st.activeRotations.filter (fun p => p.1 != sid) }

/-- `stopQRCodeRotation` (lines 922-930): if the map holds an interval for
the session, clear that interval and delete the map entry; otherwise do
nothing. -/
def stopQRCodeRotation (st : RotationState) (sid : String) : RotationState :=
  match st.activeRotations.find? (fun p => p.1 == sid) with
  | some entry =>
    { st with
      live := st.live.filter (fun q => q.1 != entry.2)
      activeRotations := st.activeRotations.filter (fun p => p.1 != sid) }
  | none => st

/-- The initial rotation state: `new Map()`, no intervals. -/
def initialRotationState : RotationState :=
  { nextTimerId := 0, live := [], activeRotations := [] }

/-- Claim C3: a token issued at `t0` with the 30-second window verifies as
valid at any `now ≤ t0 + 30000` (given intact fields and signature) and
is rejected at any `now > t0 + 30000`; and because verification also
checks `now - issued_at ≤ 30000` independently of the `expiresAt` field,
a token whose `expiresAt` alone is forged is still rejected whenever
`now - t0 > 30000`. -/
theorem validateQR_window (mac : String → String) (sid nonce : String)
    (t0 now forged : Int)
    (hsid : sid ≠ "") (hnonce : nonce ≠ "") (ht0 : 0 < t0)
    (hmac : mac (qrPayload sid t0 nonce) ≠ "") :
    (now ≤ t0 + 30000 →
      validateQR mac (generateSecureQR mac sid t0 nonce) now =
        .valid sid t0) ∧
    (t0 + 30000 < now →
      isValidResult
        (validateQR mac (generateSecureQR mac sid t0 nonce) now) = false) ∧
    (t0 + 30000 < now →
      isValidResult
        (validateQR mac
          { generateSecureQR mac sid t0 nonce with expiresAt := forged }
          now) = false) := by
  have ht0ne : t0 ≠ 0 := by omega
  have ht0nle : ¬ t0 ≤ 0 := by omega
  refine ⟨?_, ?_, ?_⟩
  · intro hle
    have hexp : ¬ now > t0 + QR_EXPIRY_SECONDS * 1000 := by
      simp [QR_EXPIRY_SECONDS]; omega
    have hwin : ¬ now - t0 > 30000 := by omega
    simp [validateQR, generateSecureQR, hsid, hnonce, ht0ne, ht0nle, hmac,
      hexp, hwin]
  · intro hlt
    have hexp : now > t0 + QR_EXPIRY_SECONDS * 1000 := by
      simp [QR_EXPIRY_SECONDS]; omega
    simp [validateQR, generateSecureQR, hsid, hnonce, ht0ne, ht0nle, hmac,
      hexp, isValidResult]
  · intro hlt
    have hwin : now - t0 > 30000 := by omega
    by_cases hexp : now > forged
    · simp [validateQR, generateSecureQR, hsid, hnonce, ht0ne, ht0nle, hmac,
        hexp, isValidResult]
    · simp [validateQR, generateSecureQR, hsid, hnonce, ht0ne, ht0nle, hmac,
        hexp, hwin, isValidResult]

/-- Witness for C3 at a concrete input: session "s1", issued at t0 = 1000,
verified at now = 40000 (past the window) with a forged expiry 100000. -/
theorem validateQR_window_witness :
    validateQR (fun s => s ++ "#mac") (generateSecureQR (fun s => s ++ "#mac") "s1" 1000 "n1") 20000 =
      .valid "s1" 1000 ∧
    isValidResult
      (validateQR (fun s => s ++ "#mac")
        { generateSecureQR (fun s => s ++ "#mac") "s1" 1000 "n1" with expiresAt := 100000 }
        40000) = false := by
  have h := validateQR_window (fun s => s ++ "#mac") "s1" "n1" 1000 20000 100000
    (by decide) (by decide) (by decide) (by decide)
  have h2 := validateQR_window (fun s => s ++ "#mac") "s1" "n1" 1000 40000 100000
    (by decide) (by decide) (by decide) (by decide)
  exact ⟨h.1 (by decide), h2.2.2 (by decide)⟩

/-- Claim C10: `generateRotatingQR` is deterministic within a 30-second
bucket — two calls with `now / 30000 = now2 / 30000` return identical
results — and the returned `expires_at` is the end of that bucket
(bucket start + 30000), not 30 seconds after the call time. -/
theorem generateRotatingQR_bucket (mac : String → String) (sid : String)
    (now now2 : Nat) (h : now / 30000 = now2 / 30000) :
    generateRotatingQR mac sid now = generateRotatingQR mac sid now2 ∧
    (generateRotatingQR mac sid now).expiresAt =
      now / 30000 * 30000 + 30000 ∧
    (generateRotatingQR mac sid now).expiresAt =
      (generateRotatingQR mac sid now).timestamp + 30000 := by
  refine ⟨?_, rfl, rfl⟩
  simp [generateRotatingQR, h]

/-- Witness for C10: call times 60001 and 89999 fall in the same bucket;
the shared expiry is 90000. -/
theorem generateRotatingQR_bucket_witness :
    generateRotatingQR (fun s => s ++ "#mac") "s1" 60001 =
      generateRotatingQR (fun s => s ++ "#mac") "s1" 89999 ∧
    (generateRotatingQR (fun s => s ++ "#mac") "s1" 60001).expiresAt = 90000 := by
  have h := generateRotatingQR_bucket (fun s => s ++ "#mac") "s1" 60001 89999
    (by decide)
  exact ⟨h.1, h.2.1⟩

/-! ### Helper lemmas shared by the attendance theorems -/

theorem any_eq_false_of_find?_none {α : Type} {l : List α} {p : α → Bool}
    (h : l.find? p = none) : l.any p = false := by
  rw [List.find?_eq_none] at h
  simp only [List.any_eq_false]
  intro x hx
  simpa using h x hx

theorem countP_eq_zero_of_find?_none {α : Type} {l : List α} {p : α → Bool}
    (h : l.find? p = none) : l.countP p = 0 := by
  rw [List.find?_eq_none] at h
  rw [List.countP_eq_zero]
  intro x hx
  simpa using h x hx

theorem find?_append_singleton {α : Type} {l : List α} {p : α → Bool}
    {a : α} (h : l.find? p = none) (ha : p a = true) :
    (l ++ [a]).find? p = some a := by
  induction l with
  | nil => simp [List.find?, ha]
  | cons x xs ih =>
    rw [List.find?_eq_none] at h
    have hx : p x = false := by simpa using h x (by simp)
    have htail : xs.find? p = none := by
      rw [List.find?_eq_none]
      intro y hy
      exact h y (by simp [hy])
    simp only [List.cons_append, List.find?_cons, hx]
    exact ih htail

theorem insertRecord_of_checkPhase_none {records : List AttendanceRecord}
    {sid stid : String} {r : AttendanceRecord}
    (hr1 : r.sessionId = sid) (hr2 : r.studentId = stid)
    (h : checkPhase records sid stid = none) :
    insertRecord records r = some (records ++ [r]) := by
  unfold checkPhase at h
  unfold insertRecord
  rw [hr1, hr2, any_eq_false_of_find?_none h]
  simp

/-- Claim C2: when an attendance row already exists for the token session
and the redeeming student, the scan endpoint answers AlreadyRecorded
with that existing row and the state is entirely unchanged — no insert,
no counter increment, no attendance event. -/
theorem scan_duplicate_unchanged (enrolled : List String) (st : ScanState)
    (sid stid : String) (now : Int) (r : AttendanceRecord)
    (hactive : st.session.status = .active)
    (henr : enrolled.contains stid = true)
    (hdup : checkPhase st.records sid stid = some r) :
    scanHandler enrolled st sid stid now = (.alreadyRecorded r, st) := by
  have hmem : stid ∈ enrolled := by simpa using henr
  simp [scanHandler, hactive, hmem, hdup]

/-- Witness for C2 at a concrete state holding one row for
(sess1, stu1). -/
theorem scan_duplicate_unchanged_witness :
    scanHandler ["stu1"]
      { session :=
          { status := .active, isActive := true, qrSecret := some "k"
            qrExpiresAt := some 30000, attendanceCount := 1, notes := none
            scheduledStart := 0 }
        records := [⟨"sess1", "stu1", 100, .present, 0⟩]
        events := 1 }
      "sess1" "stu1" 500 =
      (.alreadyRecorded ⟨"sess1", "stu1", 100, .present, 0⟩,
       { session :=
           { status := .active, isActive := true, qrSecret := some "k"
             qrExpiresAt := some 30000, attendanceCount := 1, notes := none
             scheduledStart := 0 }
         records := [⟨"sess1", "stu1", 100, .present, 0⟩]
         events := 1 }) :=
  scan_duplicate_unchanged ["stu1"] _ "sess1" "stu1" 500
    ⟨"sess1", "stu1", 100, .present, 0⟩ (by rfl) (by decide) (by decide)

/-- Counterexample to claim C5: a scan 3 minutes after the scheduled start
succeeds as present but stores minutes_late = 0, while the claimed
formula max(0, floor((t - start) / 60s)) gives 3. -/
theorem scan_minutesLate_counterexample :
    (scanHandler ["stu1"]
      { session :=
          { status := .active, isActive := true, qrSecret := some "k"
            qrExpiresAt := some 30000, attendanceCount := 0, notes := none
            scheduledStart := 0 }
        records := [], events := 0 }
      "sess1" "stu1" 180000).1 =
      .ok { sessionId := "sess1", studentId := "stu1", scannedAt := 180000
            status := .present, minutesLate := 0 } ∧
    specMinutesLateFormula 180000 0 = 3 := by decide

/-- Claim C5 as amended: a successful scan records the row built from the
scheduled start; its status is late exactly when
floor((t - start) / 60s) exceeds the 5-minute grace, its stored
minutes_late equals that floor when late and 0 otherwise (clamped for
any on-time or within-grace scan, not max(0, floor)); scanning at
start + 6 min gives late/6 and at start + 2 min gives present/0. -/
theorem scan_lateness (enrolled : List String) (st : ScanState)
    (sid stid : String) (now : Int)
    (hactive : st.session.status = .active)
    (henr : enrolled.contains stid = true)
    (hdup : checkPhase st.records sid stid = none) :
    (scanHandler enrolled st sid stid now).1 =
      .ok (mkScanRecord sid stid now st.session.scheduledStart) ∧
    ((mkScanRecord sid stid now st.session.scheduledStart).status = .late ↔
      5 < minutesLateRaw now st.session.scheduledStart) ∧
    ((mkScanRecord sid stid now st.session.scheduledStart).minutesLate =
      if 5 < minutesLateRaw now st.session.scheduledStart then
        minutesLateRaw now st.session.scheduledStart else 0) ∧
    (mkScanRecord sid stid (st.session.scheduledStart + 6 * 60000)
      st.session.scheduledStart).status = .late ∧
    (mkScanRecord sid stid (st.session.scheduledStart + 6 * 60000)
      st.session.scheduledStart).minutesLate = 6 ∧
    (mkScanRecord sid stid (st.session.scheduledStart + 2 * 60000)
      st.session.scheduledStart).status = .present ∧
    (mkScanRecord sid stid (st.session.scheduledStart + 2 * 60000)
      st.session.scheduledStart).minutesLate = 0 := by
  have hins := @insertRecord_of_checkPhase_none st.records sid stid
    (mkScanRecord sid stid now st.session.scheduledStart) rfl rfl hdup
  have hmem : stid ∈ enrolled := by simpa using henr
  have hgen : ∀ k : Int,
      minutesLateRaw (st.session.scheduledStart + k) st.session.scheduledStart =
        k.fdiv 60000 := by
    intro k
    unfold minutesLateRaw
    congr 1
    ring
  have h6 : minutesLateRaw (st.session.scheduledStart + 360000)
      st.session.scheduledStart = 6 := by
    rw [hgen]; decide
  have h2 : minutesLateRaw (st.session.scheduledStart + 120000)
      st.session.scheduledStart = 2 := by
    rw [hgen]; decide
  refine ⟨?_, ?_, ?_, ?_, ?_, ?_, ?_⟩
  · simp [scanHandler, hactive, hmem, hdup, hins]
  · unfold mkScanRecord
    by_cases h : minutesLateRaw now st.session.scheduledStart > 5 <;> simp [h]
  · unfold mkScanRecord
    by_cases h : minutesLateRaw now st.session.scheduledStart > 5 <;> simp [h]
  · simp only [mkScanRecord]
    norm_num [h6]
  · simp only [mkScanRecord]
    norm_num [h6]
  · simp only [mkScanRecord]
    norm_num [h2]
  · simp only [mkScanRecord]
    norm_num [h2]

/-- Witness for the amended C5 at concrete inputs: a scan at
start + 7 min on an empty store is recorded as late with minutes 7. -/
theorem scan_lateness_witness :
    (scanHandler ["stu1"]
      { session :=
          { status := .active, isActive := true, qrSecret := some "k"
            qrExpiresAt := some 30000, attendanceCount := 0, notes := none
            scheduledStart := 0 }
        records := [], events := 0 }
      "sess1" "stu1" 420000).1 =
      .ok (mkScanRecord "sess1" "stu1" 420000 0) ∧
    (mkScanRecord "sess1" "stu1" 420000 0).status = .late ∧
    (mkScanRecord "sess1" "stu1" 420000 0).minutesLate = 7 := by
  have h := scan_lateness ["stu1"]
    { session :=
        { status := .active, isActive := true, qrSecret := some "k"
          qrExpiresAt := some 30000, attendanceCount := 0, notes := none
          scheduledStart := 0 }
      records := [], events := 0 }
    "sess1" "stu1" 420000 (by rfl) (by decide) (by decide)
  exact ⟨h.1, by decide, by decide⟩

/-- Counterexample to claim C4: completing an already cancelled session
does not fail with PreconditionFailed — the endpoint mutates the row to
completed (and cancel on a completed session likewise mutates it to
cancelled). -/
theorem complete_no_precondition_counterexample :
    (completeSessionEndpoint
      { status := .cancelled, isActive := false, qrSecret := none
        qrExpiresAt := none, attendanceCount := 0, notes := none
        scheduledStart := 0 } "sess1" [] [] 1000).1.status = .completed ∧
    (cancelSessionUpdate
      { status := .completed, isActive := false, qrSecret := none
        qrExpiresAt := none, attendanceCount := 0, notes := none
        scheduledStart := 0 } none).status = .cancelled := by
  decide

/-- Claim C4 as amended: activate, pause and resume do enforce their
source states — any other source state yields a PreconditionFailed-style
error and no update — but complete and cancel check no source state at
all: from every state, including completed and cancelled, they mutate
the session to completed resp. cancelled. -/
theorem lifecycle_preconditions (s : Session) (qr : QRIssue)
    (notes : Option String) (sid : String) (enrolled : List String)
    (records : List AttendanceRecord) (now : Int) :
    (s.status ≠ .scheduled →
      activateSession s qr notes =
        .error (.preconditionFailed "Session not found or already activated")) ∧
    (s.status ≠ .active →
      pauseSession s =
        .error (.preconditionFailed "Session not found or not active")) ∧
    (s.status ≠ .paused →
      resumeSession s qr =
        .error (.preconditionFailed "Session not found or not paused")) ∧
    (completeSessionEndpoint s sid enrolled records now).1.status =
      .completed ∧
    (cancelSessionUpdate s notes).status = .cancelled := by
  refine ⟨?_, ?_, ?_, rfl, rfl⟩
  · intro h; simp [activateSession, h]
  · intro h; simp [pauseSession, h]
  · intro h; simp [resumeSession, h]

/-- Witness for the amended C4: pause on a scheduled session errors, and
complete on a cancelled session still flips it to completed. -/
theorem lifecycle_preconditions_witness :
    pauseSession
      { status := .scheduled, isActive := false, qrSecret := none
        qrExpiresAt := none, attendanceCount := 0, notes := none
        scheduledStart := 0 } =
      .error (.preconditionFailed "Session not found or not active") ∧
    (completeSessionEndpoint
      { status := .cancelled, isActive := false, qrSecret := none
        qrExpiresAt := none, attendanceCount := 0, notes := none
        scheduledStart := 0 } "sess1" [] [] 1000).1.status = .completed := by
  have h := lifecycle_preconditions
    { status := .scheduled, isActive := false, qrSecret := none
      qrExpiresAt := none, attendanceCount := 0, notes := none
      scheduledStart := 0 } ⟨"k", 0⟩ none "sess1" [] [] 1000
  have h2 := lifecycle_preconditions
    { status := .cancelled, isActive := false, qrSecret := none
      qrExpiresAt := none, attendanceCount := 0, notes := none
      scheduledStart := 0 } ⟨"k", 0⟩ none "sess1" [] [] 1000
  exact ⟨h.2.1 (by decide), h2.2.2.2.1⟩

/-- Counterexample to claim C7: the hard-timeout callback fired on a
paused session is a no-op — the session stays paused and no absent rows
are inserted — although the claim requires it to complete the session
in the whole active/paused superstate. -/
theorem autoComplete_paused_counterexample :
    completeSessionAutomatically
      { status := .paused, isActive := false, qrSecret := some "k"
        qrExpiresAt := none, attendanceCount := 0, notes := none
        scheduledStart := 0 } "sess1" ["stu1"] [] 99 =
      ({ status := .paused, isActive := false, qrSecret := some "k"
         qrExpiresAt := none, attendanceCount := 0, notes := none
         scheduledStart := 0 }, []) ∧
    (completeSessionAutomatically
      { status := .paused, isActive := false, qrSecret := some "k"
        qrExpiresAt := none, attendanceCount := 0, notes := none
        scheduledStart := 0 } "sess1" ["stu1"] [] 99).1.status ≠
      .completed := by
  decide

/-- Claim C7 as amended: the hard-timeout callback completes the session
(reconciliation plus marking completed) exactly when the session is
still in status active; in every other status — including paused — it
returns without touching the session or the records, so firing it after
a manual completion produces no error, no state change and no duplicate
absent rows. -/
theorem autoComplete_active_only (s : Session) (sid : String)
    (enrolled : List String) (records : List AttendanceRecord) (now : Int) :
    (s.status = .active →
      completeSessionAutomatically s sid enrolled records now =
        (completeSessionUpdate s,
         records ++ reconcileAbsent sid enrolled records now)) ∧
    (s.status ≠ .active →
      completeSessionAutomatically s sid enrolled records now = (s, records)) ∧
    completeSessionAutomatically (completeSessionUpdate s) sid enrolled
      records now = (completeSessionUpdate s, records) := by
  refine ⟨?_, ?_, ?_⟩
  · intro h; simp [completeSessionAutomatically, h]
  · intro h; simp [completeSessionAutomatically, h]
  · simp [completeSessionAutomatically, completeSessionUpdate]

/-- Witness for the amended C7: firing the callback right after a manual
completion of an active session changes nothing. -/
theorem autoComplete_active_only_witness :
    completeSessionAutomatically
      (completeSessionUpdate
        { status := .active, isActive := true, qrSecret := some "k"
          qrExpiresAt := some 30000, attendanceCount := 0, notes := none
          scheduledStart := 0 }) "sess1" ["stu1"] [] 99 =
      (completeSessionUpdate
        { status := .active, isActive := true, qrSecret := some "k"
          qrExpiresAt := some 30000, attendanceCount := 0, notes := none
          scheduledStart := 0 }, []) ∧
    completeSessionAutomatically
      { status := .completed, isActive := false, qrSecret := some "k"
        qrExpiresAt := none, attendanceCount := 0, notes := none
        scheduledStart := 0 } "sess1" ["stu1"] [] 99 =
      ({ status := .completed, isActive := false, qrSecret := some "k"
         qrExpiresAt := none, attendanceCount := 0, notes := none
         scheduledStart := 0 }, []) := by
  have h := autoComplete_active_only
    { status := .active, isActive := true, qrSecret := some "k"
      qrExpiresAt := some 30000, attendanceCount := 0, notes := none
      scheduledStart := 0 } "sess1" ["stu1"] [] 99
  have h2 := autoComplete_active_only
    { status := .completed, isActive := false, qrSecret := some "k"
      qrExpiresAt := none, attendanceCount := 0, notes := none
      scheduledStart := 0 } "sess1" ["stu1"] [] 99
  exact ⟨h.2.2, h2.2.1 (by decide)⟩

/-- Counterexample to claim C8: the generic session update endpoint
(PUT /api/sessions/:sessionId) writes a bare status without touching
is_active or qr_expires_at, so setting status completed on an active
session leaves is_active = true and a non-null expiry, breaking both
conjuncts of the invariant. -/
theorem put_breaks_invariant_counterexample :
    sessionInvariant
      { status := .active, isActive := true, qrSecret := some "k"
        qrExpiresAt := some 30000, attendanceCount := 0, notes := none
        scheduledStart := 0 } ∧
    ¬ sessionInvariant
      (updateSessionPut
        { status := .active, isActive := true, qrSecret := some "k"
          qrExpiresAt := some 30000, attendanceCount := 0, notes := none
          scheduledStart := 0 } (some .completed) none none) := by
  decide

/-- Claim C8 as amended: the lifecycle operations (activate, pause,
resume, complete, cancel, the hard-timeout completion) and the scan
counter increment all preserve the invariant that is_active holds iff
status is active and that qr_expires_at is null unless active; the
generic PUT session-update endpoint, however, writes status alone and
can break it. -/
theorem lifecycle_invariant (s s2 : Session) (qr : QRIssue)
    (notes : Option String) (sid : String) (enrolled : List String)
    (records : List AttendanceRecord) (now : Int) (st : ScanState)
    (stid : String) (now2 : Int)
    (hs : sessionInvariant s) (hst : sessionInvariant st.session) :
    (activateSession s qr notes = .ok s2 → sessionInvariant s2) ∧
    (pauseSession s = .ok s2 → sessionInvariant s2) ∧
    (resumeSession s qr = .ok s2 → sessionInvariant s2) ∧
    sessionInvariant (completeSessionEndpoint s sid enrolled records now).1 ∧
    sessionInvariant (cancelSessionUpdate s notes) ∧
    sessionInvariant
      (completeSessionAutomatically s sid enrolled records now).1 ∧
    sessionInvariant (scanHandler enrolled st sid stid now2).2.session := by
  refine ⟨?_, ?_, ?_, ?_, ?_, ?_, ?_⟩
  · intro h
    unfold activateSession at h
    by_cases hc : s.status = .scheduled
    · simp [hc] at h
      simp [← h, sessionInvariant]
    · simp [hc] at h
  · intro h
    unfold pauseSession at h
    by_cases hc : s.status = .active
    · simp [hc] at h
      simp [← h, sessionInvariant]
    · simp [hc] at h
  · intro h
    unfold resumeSession at h
    by_cases hc : s.status = .paused
    · simp [hc] at h
      simp [← h, sessionInvariant]
    · simp [hc] at h
  · simp [completeSessionEndpoint, completeSessionUpdate, sessionInvariant]
  · simp [cancelSessionUpdate, sessionInvariant]
  · unfold completeSessionAutomatically
    by_cases hc : s.status = .active
    · simp [hc, completeSessionUpdate, sessionInvariant]
    · simp [hc, hs]
  · unfold scanHandler
    by_cases hc : st.session.status = .active
    · by_cases he : stid ∈ enrolled
      · cases hd : checkPhase st.records sid stid with
        | some r => simp [hc, he, hd, hst]
        | none =>
          cases hi : insertRecord st.records
              (mkScanRecord sid stid now2 st.session.scheduledStart) with
          | some recs =>
            have hia : st.session.isActive = true := hst.1.mpr hc
            simp [hc, he, hd, hi, sessionInvariant, hia]
          | none => simp [hc, he, hd, hi, hst]
      · simp [hc, he, hst]
    · simp [hc, hst]

/-- Witness for the amended C8: activating a fresh scheduled session
yields a row satisfying the invariant, and completing it preserves the
invariant. -/
theorem lifecycle_invariant_witness :
    sessionInvariant
      (completeSessionEndpoint
        { status := .scheduled, isActive := false, qrSecret := none
          qrExpiresAt := none, attendanceCount := 0, notes := none
          scheduledStart := 0 } "sess1" [] [] 99).1 ∧
    sessionInvariant
      (cancelSessionUpdate
        { status := .scheduled, isActive := false, qrSecret := none
          qrExpiresAt := none, attendanceCount := 0, notes := none
          scheduledStart := 0 } none) := by
  have h := lifecycle_invariant
    { status := .scheduled, isActive := false, qrSecret := none
      qrExpiresAt := none, attendanceCount := 0, notes := none
      scheduledStart := 0 }
    { status := .scheduled, isActive := false, qrSecret := none
      qrExpiresAt := none, attendanceCount := 0, notes := none
      scheduledStart := 0 }
    ⟨"k", 0⟩ none "sess1" [] [] 99
    { session :=
        { status := .scheduled, isActive := false, qrSecret := none
          qrExpiresAt := none, attendanceCount := 0, notes := none
          scheduledStart := 0 }
      records := [], events := 0 } "stu1" 99
    (by decide) (by decide)
  exact ⟨h.2.2.2.1, h.2.2.2.2.1⟩

/-- Counterexample to claim C9: starting rotation for a session that is
already rotating is not a no-op — the second start leaves a second live
interval (the first is orphaned, no longer reachable from the registry),
so the registry state differs from a single start. -/
theorem rotation_start_not_idempotent_counterexample :
    startQRCodeRotation (startQRCodeRotation initialRotationState "s1") "s1" ≠
      startQRCodeRotation initialRotationState "s1" ∧
    (startQRCodeRotation (startQRCodeRotation initialRotationState "s1")
      "s1").live.length = 2 ∧
    (startQRCodeRotation initialRotationState "s1").live.length = 1 := by
  decide

/-- Claim C9 as amended: the registry keeps at most one registered timer
per session id (start and stop preserve distinctness of the keys), and
stop — called by pause, complete and cancel — deregisters the session
and clears its registered interval; but start is not idempotent: every
call creates one more live interval, overwriting the registry entry and
orphaning any interval previously registered for the session. -/
theorem rotation_registry (st : RotationState) (sid : String)
    (hnd : (st.activeRotations.map Prod.fst).Nodup) :
    ((startQRCodeRotation st sid).activeRotations.map Prod.fst).Nodup ∧
    ((stopQRCodeRotation st sid).activeRotations.map Prod.fst).Nodup ∧
    (startQRCodeRotation st sid).live.length = st.live.length + 1 ∧
    (stopQRCodeRotation st sid).activeRotations.find?
      (fun p => p.1 == sid) = none ∧
    (∀ entry, st.activeRotations.find? (fun p => p.1 == sid) = some entry →
      ∀ q ∈ (stopQRCodeRotation st sid).live, q.1 ≠ entry.2) := by
  have hsub : ∀ p2 : (String × Nat) → Bool,
      ((st.activeRotations.filter p2).map Prod.fst).Nodup := by
    intro p2
    exact List.Nodup.sublist
      (List.Sublist.map Prod.fst (List.filter_sublist st.activeRotations)) hnd
  refine ⟨?_, ?_, ?_, ?_, ?_⟩
  · unfold startQRCodeRotation
    simp only [List.map_cons, List.nodup_cons]
    constructor
    · intro hmem
      rcases List.mem_map.mp hmem with ⟨p, hp, hfst⟩
      rcases List.mem_filter.mp hp with ⟨h0, hne⟩
      simp only [bne_iff_ne, ne_eq] at hne
      exact hne hfst
    · exact hsub _
  · unfold stopQRCodeRotation
    cases hf : st.activeRotations.find? (fun p => p.1 == sid) with
    | some entry => simpa using hsub _
    | none => simpa using hnd
  · unfold startQRCodeRotation
    simp
  · unfold stopQRCodeRotation
    cases hf : st.activeRotations.find? (fun p => p.1 == sid) with
    | some entry =>
      simp only
      rw [List.find?_eq_none]
      intro p hp
      rcases List.mem_filter.mp hp with ⟨h0, hne⟩
      simpa using hne
    | none =>
      simp only
      exact hf
  · intro entry hentry q hq
    unfold stopQRCodeRotation at hq
    rw [hentry] at hq
    simp only at hq
    rcases List.mem_filter.mp hq with ⟨_, hne⟩
    simpa using hne

/-- Witness for the amended C9 at a registry holding one session: the
start adds a live interval and the stop deregisters the session. -/
theorem rotation_registry_witness :
    (startQRCodeRotation
      { nextTimerId := 1, live := [(0, "s1")],
        activeRotations := [("s1", 0)] } "s1").live.length = 2 ∧
    (stopQRCodeRotation
      { nextTimerId := 1, live := [(0, "s1")],
        activeRotations := [("s1", 0)] } "s1").activeRotations.find?
      (fun p => p.1 == "s1") = none := by
  have h := rotation_registry
    { nextTimerId := 1, live := [(0, "s1")], activeRotations := [("s1", 0)] }
    "s1" (by decide)
  exact ⟨h.2.2.1, h.2.2.2.1⟩

/-- Claim C6: completing a session with N actively-enrolled students and K
existing rows (distinct, all for enrolled students, K < N) inserts
exactly N - K absent rows stamped with the completion time, one per
enrolled student without a row, duplicating nothing; a second
reconciliation run inserts nothing. -/
theorem reconcileAbsent_complete (sid : String) (enrolled : List String)
    (records : List AttendanceRecord) (now : Int)
    (henr : enrolled.Nodup)
    (hrecn : (existingStudentIds records).Nodup)
    (hsub : ∀ r ∈ records, r.studentId ∈ enrolled)
    (hlt : records.length < enrolled.length) :
    (reconcileAbsent sid enrolled records now).length =
      enrolled.length - records.length ∧
    (∀ r ∈ reconcileAbsent sid enrolled records now,
      r.status = .absent ∧ r.scannedAt = now ∧ r.sessionId = sid ∧
      r.studentId ∈ enrolled ∧
      r.studentId ∉ records.map (fun x => x.studentId)) ∧
    ((reconcileAbsent sid enrolled records now).map
      (fun r => r.studentId)).Nodup ∧
    reconcileAbsent sid enrolled
      (records ++ reconcileAbsent sid enrolled records now) now = [] := by
  have hXsub : ∀ x ∈ existingStudentIds records, x ∈ enrolled := by
    intro x hx
    rcases List.mem_map.mp hx with ⟨r, hr, rfl⟩
    exact hsub r hr
  have hcomp : ((fun r : AttendanceRecord => r.studentId) ∘
      (fun stid =>
        ({ sessionId := sid, studentId := stid, scannedAt := now,
           status := .absent, minutesLate := 0 } : AttendanceRecord))) =
      id := rfl
  have hids : (reconcileAbsent sid enrolled records now).map
      (fun r => r.studentId) =
      enrolled.filter (fun a => !(existingStudentIds records).contains a) := by
    unfold reconcileAbsent
    rw [List.map_map, hcomp, List.map_id]
  have hlen1 : (reconcileAbsent sid enrolled records now).length =
      (enrolled.filter
        (fun a => !(existingStudentIds records).contains a)).length := by
    have h := congrArg List.length hids
    simpa using h
  have hperm : List.Perm
      (enrolled.filter (fun a => (existingStudentIds records).contains a))
      (existingStudentIds records) := by
    rw [List.perm_ext_iff_of_nodup (henr.filter _) hrecn]
    intro a
    simp only [List.mem_filter, List.elem_eq_mem, decide_eq_true_eq]
    constructor
    · rintro ⟨h1, h2⟩
      exact h2
    · intro h
      exact ⟨hXsub a h, h⟩
  have hlenf : (enrolled.filter
      (fun a => (existingStudentIds records).contains a)).length =
      (existingStudentIds records).length :=
    hperm.length_eq
  have htot := @List.length_eq_length_filter_add String enrolled
    (fun a => (existingStudentIds records).contains a)
  have hXlen : (existingStudentIds records).length = records.length := by
    simp [existingStudentIds]
  have hlen : (reconcileAbsent sid enrolled records now).length =
      enrolled.length - records.length := by
    rw [hlen1]
    omega
  refine ⟨hlen, ?_, ?_, ?_⟩
  · intro r hr
    simp only [reconcileAbsent, List.mem_map, List.mem_filter] at hr
    rcases hr with ⟨stid, ⟨hmem, hnc⟩, rfl⟩
    refine ⟨rfl, rfl, rfl, hmem, ?_⟩
    simpa [existingStudentIds] using hnc
  · rw [hids]
    exact henr.filter _
  · have hnil : enrolled.filter
        (fun stid =>
          !(existingStudentIds
            (records ++ reconcileAbsent sid enrolled records now)).contains
              stid) = [] := by
      rw [List.filter_eq_nil_iff]
      intro a ha
      have hX2 : existingStudentIds
          (records ++ reconcileAbsent sid enrolled records now) =
          existingStudentIds records ++
          enrolled.filter
            (fun b => !(existingStudentIds records).contains b) := by
        show List.map (fun r => r.studentId)
            (records ++ reconcileAbsent sid enrolled records now) = _
        rw [List.map_append, hids]
        rfl
      rw [hX2]
      by_cases hx : a ∈ existingStudentIds records
      · simp [hx]
      · simp [List.mem_filter, ha, hx]
    have habs : ∀ recs : List AttendanceRecord,
        enrolled.filter
          (fun stid => !(existingStudentIds recs).contains stid) = [] →
        reconcileAbsent sid enrolled recs now = [] := by
      intro recs h
      unfold reconcileAbsent
      rw [h]
      simp
    exact habs _ hnil

/-- Witness for C6: three enrolled students, one existing present row;
reconciliation inserts two rows and a second run inserts nothing. -/
theorem reconcileAbsent_complete_witness :
    (reconcileAbsent "s1" ["a", "b", "c"]
      [⟨"s1", "a", 10, .present, 0⟩] 99).length = 2 ∧
    reconcileAbsent "s1" ["a", "b", "c"]
      ([⟨"s1", "a", 10, .present, 0⟩] ++
        reconcileAbsent "s1" ["a", "b", "c"]
          [⟨"s1", "a", 10, .present, 0⟩] 99) 99 = [] := by
  have h := reconcileAbsent_complete "s1" ["a", "b", "c"]
    [⟨"s1", "a", 10, .present, 0⟩] 99 (by decide) (by decide)
    (by decide) (by decide)
  exact ⟨by simpa using h.1, h.2.2.2⟩

/-- Counterexample to claim C1: in the interleaving where both attempts
pass the application-level duplicate pre-check before either insert, the
storage constraint blocks the second insert, so exactly one row exists
afterwards — but the losing attempt observes the generic insert-failure
response (HTTP 500), not AlreadyRecorded. -/
theorem race_loser_not_alreadyRecorded_counterexample :
    (raceExec .ccABthenAB []
      ⟨"s1", "u1", 10, .present, 0⟩ ⟨"s1", "u1", 11, .present, 0⟩).2.1 =
      .recordError ∧
    isAlreadyRecorded
      (raceExec .ccABthenAB []
        ⟨"s1", "u1", 10, .present, 0⟩ ⟨"s1", "u1", 11, .present, 0⟩).2.1 =
      false ∧
    ((raceExec .ccABthenAB []
      ⟨"s1", "u1", 10, .present, 0⟩
      ⟨"s1", "u1", 11, .present, 0⟩).2.2.countP (keyMatch "s1" "u1")) = 1 := by
  decide

/-- Claim C1 as amended: the storage-level UNIQUE(session_id, student_id)
constraint guarantees that at most one row per (session, student) ever
exists — every constrained insert preserves the invariant — and in every
interleaving of two redemption attempts exactly one attempt wins and
creates the single present/late row; the losing attempt observes
AlreadyRecorded when the application pre-check catches the duplicate,
but a concurrent loser that raced past the pre-check observes the
insert-failure error instead of AlreadyRecorded. -/
theorem race_uniqueness (order : RaceOrder)
    (records0 : List AttendanceRecord) (recA recB : AttendanceRecord)
    (sid stid : String)
    (hA1 : recA.sessionId = sid) (hA2 : recA.studentId = stid)
    (hB1 : recB.sessionId = sid) (hB2 : recB.studentId = stid)
    (h0 : checkPhase records0 sid stid = none) :
    ((raceExec order records0 recA recB).2.2.countP (keyMatch sid stid) = 1) ∧
    (((raceExec order records0 recA recB).1 = .ok recA ∧
      ((raceExec order records0 recA recB).2.1 = .alreadyRecorded recA ∨
       (raceExec order records0 recA recB).2.1 = .recordError)) ∨
     ((raceExec order records0 recA recB).2.1 = .ok recB ∧
      ((raceExec order records0 recA recB).1 = .alreadyRecorded recB ∨
       (raceExec order records0 recA recB).1 = .recordError))) ∧
    (∀ recs : List AttendanceRecord, ∀ r : AttendanceRecord,
      atMostOnePerKey recs →
      ∀ recs2, insertRecord recs r = some recs2 → atMostOnePerKey recs2) := by
  have hkA : keyMatch sid stid recA = true := by
    simp [keyMatch, hA1, hA2]
  have hkB : keyMatch sid stid recB = true := by
    simp [keyMatch, hB1, hB2]
  have hcA : checkPhase records0 recA.sessionId recA.studentId = none := by
    rw [hA1, hA2]; exact h0
  have hcB : checkPhase records0 recB.sessionId recB.studentId = none := by
    rw [hB1, hB2]; exact h0
  have hinsA : insertRecord records0 recA = some (records0 ++ [recA]) :=
    insertRecord_of_checkPhase_none hA1 hA2 h0
  have hinsB : insertRecord records0 recB = some (records0 ++ [recB]) :=
    insertRecord_of_checkPhase_none hB1 hB2 h0
  have hcBA : checkPhase (records0 ++ [recA]) recB.sessionId
      recB.studentId = some recA := by
    rw [hB1, hB2]
    exact find?_append_singleton h0 hkA
  have hcAB : checkPhase (records0 ++ [recB]) recA.sessionId
      recA.studentId = some recB := by
    rw [hA1, hA2]
    exact find?_append_singleton h0 hkB
  have hinsBA : insertRecord (records0 ++ [recA]) recB = none := by
    unfold insertRecord
    rw [hB1, hB2]
    have hany : (records0 ++ [recA]).any (keyMatch sid stid) = true := by
      simp only [List.any_append, List.any_cons, List.any_nil, hkA]
      simp
    rw [hany]
    simp
  have hinsAB : insertRecord (records0 ++ [recB]) recA = none := by
    unfold insertRecord
    rw [hA1, hA2]
    have hany : (records0 ++ [recB]).any (keyMatch sid stid) = true := by
      simp only [List.any_append, List.any_cons, List.any_nil, hkB]
      simp
    rw [hany]
    simp
  have hz : records0.countP (keyMatch sid stid) = 0 :=
    countP_eq_zero_of_find?_none h0
  have hcntA : (records0 ++ [recA]).countP (keyMatch sid stid) = 1 := by
    rw [List.countP_append, hz]
    simp [List.countP_cons, hkA]
  have hcntB : (records0 ++ [recB]).countP (keyMatch sid stid) = 1 := by
    rw [List.countP_append, hz]
    simp [List.countP_cons, hkB]
  have hpreserve : ∀ recs : List AttendanceRecord, ∀ r : AttendanceRecord,
      atMostOnePerKey recs →
      ∀ recs2, insertRecord recs r = some recs2 → atMostOnePerKey recs2 := by
    intro recs r hmo recs2 hins
    unfold insertRecord at hins
    by_cases hany : recs.any (keyMatch r.sessionId r.studentId) = true
    · rw [hany] at hins
      simp at hins
    · rw [Bool.not_eq_true] at hany
      rw [hany] at hins
      simp only [if_neg Bool.false_ne_true, Option.some.injEq] at hins
      subst hins
      intro sid2 stid2
      rw [List.countP_append]
      by_cases hk : keyMatch sid2 stid2 r = true
      · have hkey : r.sessionId = sid2 ∧ r.studentId = stid2 := by
          simpa [keyMatch] using hk
        have hz2 : recs.countP (keyMatch sid2 stid2) = 0 := by
          rw [List.countP_eq_zero]
          intro x hx
          rw [List.any_eq_false] at hany
          have := hany x hx
          rw [hkey.1, hkey.2] at this
          simp [this]
        simp [hz2, List.countP_cons, hk]
      · have h1 : recs.countP (keyMatch sid2 stid2) ≤ 1 := hmo sid2 stid2
        rw [Bool.not_eq_true] at hk
        simp [List.countP_cons, hk]
        omega
  cases order with
  | seqAB =>
    refine ⟨?_, ?_, hpreserve⟩
    · simp only [raceExec, hcA, resumePhase, hinsA, hcBA]
      exact hcntA
    · simp only [raceExec, hcA, resumePhase, hinsA, hcBA]
      exact Or.inl ⟨trivial, Or.inl trivial⟩
  | seqBA =>
    refine ⟨?_, ?_, hpreserve⟩
    · simp only [raceExec, hcB, resumePhase, hinsB, hcAB]
      exact hcntB
    · simp only [raceExec, hcB, resumePhase, hinsB, hcAB]
      exact Or.inr ⟨trivial, Or.inl trivial⟩
  | ccABthenAB =>
    refine ⟨?_, ?_, hpreserve⟩
    · simp only [raceExec, hcA, hcB, resumePhase, hinsA, hinsBA]
      exact hcntA
    · simp only [raceExec, hcA, hcB, resumePhase, hinsA, hinsBA]
      exact Or.inl ⟨trivial, Or.inr trivial⟩
  | ccABthenBA =>
    refine ⟨?_, ?_, hpreserve⟩
    · simp only [raceExec, hcA, hcB, resumePhase, hinsB, hinsAB]
      exact hcntB
    · simp only [raceExec, hcA, hcB, resumePhase, hinsB, hinsAB]
      exact Or.inr ⟨trivial, Or.inr trivial⟩
  | ccBAthenAB =>
    refine ⟨?_, ?_, hpreserve⟩
    · simp only [raceExec, hcA, hcB, resumePhase, hinsA, hinsBA]
      exact hcntA
    · simp only [raceExec, hcA, hcB, resumePhase, hinsA, hinsBA]
      exact Or.inl ⟨trivial, Or.inr trivial⟩
  | ccBAthenBA =>
    refine ⟨?_, ?_, hpreserve⟩
    · simp only [raceExec, hcA, hcB, resumePhase, hinsB, hinsAB]
      exact hcntB
    · simp only [raceExec, hcA, hcB, resumePhase, hinsB, hinsAB]
      exact Or.inr ⟨trivial, Or.inr trivial⟩

/-- Witness for the amended C1 at concrete inputs: in the sequential
interleaving the loser observes AlreadyRecorded, and exactly one row
exists afterwards. -/
theorem race_uniqueness_witness :
    ((raceExec .seqAB []
      ⟨"s1", "u1", 10, .present, 0⟩
      ⟨"s1", "u1", 11, .present, 0⟩).2.2.countP (keyMatch "s1" "u1") = 1) ∧
    (raceExec .seqAB []
      ⟨"s1", "u1", 10, .present, 0⟩
      ⟨"s1", "u1", 11, .present, 0⟩).1 =
      .ok ⟨"s1", "u1", 10, .present, 0⟩ := by
  have h := race_uniqueness .seqAB []
    ⟨"s1", "u1", 10, .present, 0⟩ ⟨"s1", "u1", 11, .present, 0⟩
    "s1" "u1" (by decide) (by decide) (by decide) (by decide) (by decide)
  exact ⟨h.1, by decide⟩

end Fusas
